import Mathlib

/-!
Verification of the node-side fabric initiator of the ceph-nvmeof-csi driver
(`pkg/util/initiator.go`), together with a model of the per-volume lock
registry described by the design document. External effects (process
execution, filesystem globbing) are abstracted by explicit oracles:

* a `GlobEnv` gives, for each poll index `i`, the outcome of the `i`-th
  `filepath.Glob` evaluation performed by a wait loop (either the
  `ErrBadPattern` error or the list of matching paths);
* a `Nat → ProcBehavior` gives, for each spawn index, the behaviour of the
  external process spawned by `execWithTimeout` (finished with combined
  output and an exit status, or killed by the deadline with partial output).

Time is accounted explicitly: the wait loops return, next to their result,
the number of one-second sleeps they performed before returning.
-/

namespace NvmeofCsi

/-- Outcome of one `filepath.Glob` evaluation: either Go's `ErrBadPattern`,
or the (possibly empty) list of paths matching the pattern. -/
inductive GlobResult where
  | err : GlobResult
  | matches : List String → GlobResult
deriving DecidableEq, Repr

/-- Oracle for the glob polls of a wait loop: poll index ↦ outcome. -/
def GlobEnv : Type := Nat → GlobResult

/-- Errors a device wait can return. -/
inductive WaitErr where
  /-- Go's `filepath.ErrBadPattern`, propagated unchanged. -/
  | badPattern : WaitErr
  /-- `fmt.Errorf("timed out waiting device ready/gone: %s", deviceGlob)`. -/
  | timedOut : String → WaitErr
deriving DecidableEq, Repr

/-- Loop body of `waitForDeviceReady`: `i` is the current poll index, the
last argument the number of loop iterations still to run.  Mirrors
`for i := 0; i <= seconds; i++ { Glob; err → return; len ≥ 1 → return
matches[0]; Sleep(1s) }`.  The second component counts the one-second
sleeps performed. -/
def waitReadyLoop (env : GlobEnv) (deviceGlob : String) (i : Nat) :
    Nat → Except WaitErr String × Nat
  | 0 => (Except.error (WaitErr.timedOut deviceGlob), 0)
  | n + 1 =>
    match env i with
    | GlobResult.err => (Except.error WaitErr.badPattern, 0)
    | GlobResult.matches [] =>
      let r := waitReadyLoop env deviceGlob (i + 1) n
      (r.1, r.2 + 1)
    | GlobResult.matches (d :: _) => (Except.ok d, 0)

/-- `waitForDeviceReady(deviceGlob, seconds)` from `initiator.go`: polls the
glob once per second for `seconds + 1` iterations (the Go loop bound is
`i <= seconds`), returning the first match as soon as one appears,
propagating a glob error, and timing out otherwise. -/
def waitForDeviceReady (env : GlobEnv) (deviceGlob : String) (seconds : Nat) :
    Except WaitErr String × Nat :=
  waitReadyLoop env deviceGlob 0 (seconds + 1)

/-- Loop body of `waitForDeviceGone`, analogous to `waitReadyLoop` but
succeeding when the glob has zero matches. -/
def waitGoneLoop (env : GlobEnv) (deviceGlob : String) (i : Nat) :
    Nat → Except WaitErr Unit × Nat
  | 0 => (Except.error (WaitErr.timedOut deviceGlob), 0)
  | n + 1 =>
    match env i with
    | GlobResult.err => (Except.error WaitErr.badPattern, 0)
    | GlobResult.matches [] => (Except.ok (), 0)
    | GlobResult.matches (_ :: _) =>
      let r := waitGoneLoop env deviceGlob (i + 1) n
      (r.1, r.2 + 1)

/-- `waitForDeviceGone(deviceGlob)` from `initiator.go`: the budget is the
hard-coded `i <= 20`, i.e. 21 poll iterations. -/
def waitForDeviceGone (env : GlobEnv) (deviceGlob : String) :
    Except WaitErr Unit × Nat :=
  waitGoneLoop env deviceGlob 0 21

/-- Behaviour of one spawn of an external process: it either finished
before the deadline, with its combined output and whether it exited zero,
or the deadline expired, with whatever output had been captured. -/
inductive ProcBehavior where
  | finished : String → Bool → ProcBehavior
  | timedOut : String → ProcBehavior
deriving DecidableEq, Repr

/-- Error classification of `execWithTimeout`: the `fmt.Errorf("timed out")`
deadline outcome is a distinct value from a non-zero exit error. -/
inductive ExecErr where
  | timedOut : ExecErr
  | exitErr : ExecErr
deriving DecidableEq, Repr

/-- `execWithTimeout(cmdLine, timeout)` from `initiator.go`: spawns the
process once (it consults only spawn index 0 of the behaviour oracle) and
returns the captured combined output in every case, together with `none`
on success, `ExecErr.timedOut` when the context deadline expired, and
`ExecErr.exitErr` on a non-zero exit. -/
def execWithTimeout (cmdLine : List String) (timeout : Nat)
    (behavior : Nat → ProcBehavior) : String × Option ExecErr :=
  let _ := cmdLine
  let _ := timeout
  match behavior 0 with
  | ProcBehavior.finished output true => (output, none)
  | ProcBehavior.finished output false => (output, some ExecErr.exitErr)
  | ProcBehavior.timedOut output => (output, some ExecErr.timedOut)

/-- The NVMf initiator record, fields as in `initiatorNVMf`. -/
structure InitiatorNVMf where
  targetType : String
  targetAddr : String
  targetPort : String
  nqn : String
  uuid : String
deriving DecidableEq, Repr

/-- Go map lookup `publishContext[key]`: a missing key yields the zero
value `""`, exactly like an absent entry of a Go `map[string]string`. -/
def ctxLookup (ctx : List (String × String)) (key : String) : String :=
  match ctx.find? (fun p => p.1 == key) with
  | some p => p.2
  | none => ""

/-- `NewNvmeofCsiInitiator(publishContext)` from `initiator.go`: rejects a
nil map, rejects a map in which any of the five required keys is absent or
empty, and otherwise builds the initiator from exactly those five values.
It runs no external command. -/
def NewNvmeofCsiInitiator (publishContext : Option (List (String × String))) :
    Except String InitiatorNVMf :=
  match publishContext with
  | none => Except.error "publishContext is nil"
  | some ctx =>
    if ctxLookup ctx "transport" == "" || ctxLookup ctx "traddr" == "" ||
        ctxLookup ctx "trsvcid" == "" || ctxLookup ctx "nqn" == "" ||
        ctxLookup ctx "uuid" == "" then
      Except.error "publishContext missing required fields"
    else
      Except.ok
        { targetType := ctxLookup ctx "transport"
          targetAddr := ctxLookup ctx "traddr"
          targetPort := ctxLookup ctx "trsvcid"
          nqn := ctxLookup ctx "nqn"
          uuid := ctxLookup ctx "uuid" }

/-- Does `pat` start `s`? (`List.isPrefixOf` on characters, spelled out.) -/
def charsStartWith : List Char → List Char → Bool
  | [], _ => true
  | _ :: _, [] => false
  | p :: ps, c :: cs => p == c && charsStartWith ps cs

/-- Does `pat` occur somewhere inside `s`? -/
def charsContain (s pat : List Char) : Bool :=
  match s with
  | [] => pat.isEmpty
  | _ :: cs => charsStartWith pat s || charsContain cs pat

/-- Go's `strings.Contains(s, substr)`. -/
def stringContains (s substr : String) : Bool :=
  charsContain s.toList substr.toList

/-- The `nvme connect-all` command line built by `Connect`. -/
def connectCmdLine (nvmf : InitiatorNVMf) : List String :=
  ["nvme", "connect-all", "-t", nvmf.targetType.toLower,
   "-a", nvmf.targetAddr, "-q", nvmf.nqn, "-l", "1800"]

/-- The `nvme disconnect` command line built by `Disconnect`. -/
def disconnectCmdLine (nvmf : InitiatorNVMf) : List String :=
  ["nvme", "disconnect", "-n", nvmf.nqn]

/-- The uuid-keyed device glob `/dev/disk/by-id/nvme-uuid.*<uuid>*`. -/
def deviceGlob (nvmf : InitiatorNVMf) : String :=
  "/dev/disk/by-id/nvme-uuid.*" ++ nvmf.uuid ++ "*"

/-- `(*initiatorNVMf).Connect()` from `initiator.go`: runs the connect-all
command with a 40-second deadline, logs (second component) a warning when
the failing command's output contains "already connected" and an error
otherwise, then — regardless of the command outcome — waits up to 20
seconds for a device matching the uuid glob and returns that wait's
result. -/
def Connect (nvmf : InitiatorNVMf) (behavior : Nat → ProcBehavior)
    (env : GlobEnv) : Except WaitErr String × List String :=
  let r := execWithTimeout (connectCmdLine nvmf) 40 behavior
  let logs : List String :=
    match r.2 with
    | some _ =>
      if stringContains r.1 "already connected" then
        ["nvme connect: already connected to volume " ++ nvmf.nqn ++ ", continuing"]
      else
        ["command " ++ String.intercalate " " (connectCmdLine nvmf) ++ " failed"]
    | none => []
  ((waitForDeviceReady env (deviceGlob nvmf) 20).1, logs)

/-- `(*initiatorNVMf).Disconnect()` from `initiator.go`: runs the
disconnect command with a 40-second deadline, logs a failure instead of
returning it, then waits for the uuid glob to have zero matches and
returns that wait's result. -/
def Disconnect (nvmf : InitiatorNVMf) (behavior : Nat → ProcBehavior)
    (env : GlobEnv) : Except WaitErr Unit × List String :=
  let r := execWithTimeout (disconnectCmdLine nvmf) 40 behavior
  let logs : List String :=
    match r.2 with
    | some _ =>
      ["command " ++ String.intercalate " " (disconnectCmdLine nvmf) ++ " failed"]
    | none => []
  ((waitForDeviceGone env (deviceGlob nvmf)).1, logs)

/-!
## Volume lock registry

Modelled from the spec: the node server's Volume Lock Registry (its source
is not under `src/`; only the design document describes it): `acquire
(volumeId)` blocks while another lifecycle operation holds the lock of the
same volume id and otherwise enters the critical section; distinct volume
ids never contend.  A system state is a finite family of threads, each a
pending lifecycle operation tagged with its volume id and its phase, plus
the registry's map from volume id to held/free.
-/

/-- Phase of one lifecycle operation: not yet inside its critical section,
inside it, or finished. -/
inductive Phase where
  | idle : Phase
  | critical : Phase
  | done : Phase
deriving DecidableEq, Repr

/-- One in-flight lifecycle operation: the volume id it locks on and its
current phase. -/
structure ThreadSt where
  vid : String
  phase : Phase
deriving DecidableEq, Repr

/-- Modelled from the spec: global state of the lock registry with `n`
in-flight operations: the threads and, for each volume id, whether its
lock is currently held. -/
structure LockSt (n : Nat) where
  threads : Fin n → ThreadSt
  held : String → Bool

/-- Modelled from the spec: interleaving semantics of the registry.
`acquire` fires for an idle thread only when its volume id's lock is free
(blocking acquisition), marks the lock held and the thread critical;
`release` fires for a critical thread, frees the lock and marks the thread
done.  Only the stepping thread's entry changes. -/
inductive LockStep {n : Nat} : LockSt n → LockSt n → Prop where
  | acquire (s : LockSt n) (t : Fin n) :
      (s.threads t).phase = Phase.idle →
      s.held (s.threads t).vid = false →
      LockStep s
        ⟨Function.update s.threads t ⟨(s.threads t).vid, Phase.critical⟩,
         fun v => if v = (s.threads t).vid then true else s.held v⟩
  | release (s : LockSt n) (t : Fin n) :
      (s.threads t).phase = Phase.critical →
      LockStep s
        ⟨Function.update s.threads t ⟨(s.threads t).vid, Phase.done⟩,
         fun v => if v = (s.threads t).vid then false else s.held v⟩

/-- Initial state: every operation is idle, no lock is held. -/
def initLockSt {n : Nat} (vids : Fin n → String) : LockSt n :=
  ⟨fun t => ⟨vids t, Phase.idle⟩, fun _ => false⟩

/-- States reachable from the initial state by interleaved steps. -/
def LockReachable {n : Nat} (vids : Fin n → String) (s : LockSt n) : Prop :=
  Relation.ReflTransGen LockStep (initLockSt vids) s

/-- Inductive invariant of the registry: a critical thread's lock is held,
and no two distinct critical threads share a volume id. -/
def LockInv {n : Nat} (s : LockSt n) : Prop :=
  (∀ t : Fin n, (s.threads t).phase = Phase.critical →
    s.held (s.threads t).vid = true) ∧
  (∀ t u : Fin n, t ≠ u → (s.threads t).phase = Phase.critical →
    (s.threads u).phase = Phase.critical →
    (s.threads t).vid ≠ (s.threads u).vid)

theorem lockInv_init {n : Nat} (vids : Fin n → String) :
    LockInv (initLockSt vids) := by
  constructor
  · intro t ht
    simp [initLockSt] at ht
  · intro t u _ ht
    simp [initLockSt] at ht

theorem lockInv_step {n : Nat} {s s' : LockSt n} (hs : LockInv s)
    (h : LockStep s s') : LockInv s' := by
  obtain ⟨h1, h2⟩ := hs
  cases h with
  | acquire t hidle hfree =>
    constructor
    · intro u hu
      dsimp only at hu ⊢
      by_cases hut : u = t
      · subst hut
        simp [Function.update_same]
      · rw [Function.update_noteq hut] at hu ⊢
        have hheld := h1 u hu
        by_cases hv : (s.threads u).vid = (s.threads t).vid
        · simp [hv]
        · simp [hv, hheld]
    · intro u w huw hu hw
      dsimp only at hu hw ⊢
      by_cases hut : u = t
      · subst hut
        have hwu : w ≠ u := Ne.symm huw
        rw [Function.update_noteq hwu] at hw ⊢
        rw [Function.update_same] at hu ⊢
        have hheldw := h1 w hw
        intro hveq
        dsimp only at hveq
        rw [← hveq] at hheldw
        rw [hfree] at hheldw
        exact Bool.noConfusion hheldw
      · by_cases hwt : w = t
        · subst hwt
          rw [Function.update_noteq hut] at hu ⊢
          rw [Function.update_same] at hw ⊢
          have hheldu := h1 u hu
          intro hveq
          dsimp only at hveq
          rw [hveq] at hheldu
          rw [hfree] at hheldu
          exact Bool.noConfusion hheldu
        · rw [Function.update_noteq hut] at hu ⊢
          rw [Function.update_noteq hwt] at hw ⊢
          exact h2 u w huw hu hw
  | release t hcrit =>
    constructor
    · intro u hu
      dsimp only at hu ⊢
      by_cases hut : u = t
      · subst hut
        rw [Function.update_same] at hu
        simp at hu
      · rw [Function.update_noteq hut] at hu ⊢
        have hheld := h1 u hu
        have hne : (s.threads u).vid ≠ (s.threads t).vid :=
          h2 u t hut hu hcrit
        simp [hne, hheld]
    · intro u w huw hu hw
      dsimp only at hu hw ⊢
      by_cases hut : u = t
      · subst hut
        rw [Function.update_same] at hu
        simp at hu
      · by_cases hwt : w = t
        · subst hwt
          rw [Function.update_same] at hw
          simp at hw
        · rw [Function.update_noteq hut] at hu ⊢
          rw [Function.update_noteq hwt] at hw ⊢
          exact h2 u w huw hu hw

theorem lockInv_reachable {n : Nat} {vids : Fin n → String} {s : LockSt n}
    (h : LockReachable vids s) : LockInv s := by
  induction h with
  | refl => exact lockInv_init vids
  | tail _ hstep ih => exact lockInv_step ih hstep

/-! ## Wait-loop lemmas -/

theorem waitReadyLoop_all_empty (env : GlobEnv) (g : String) :
    ∀ n i, (∀ j, i ≤ j → j < i + n → env j = GlobResult.matches []) →
      waitReadyLoop env g i n = (Except.error (WaitErr.timedOut g), n) := by
  intro n
  induction n with
  | zero => intro i _; rfl
  | succ n ih =>
    intro i h
    have h0 : env i = GlobResult.matches [] := h i le_rfl (by omega)
    have hrec := ih (i + 1) (fun j hj1 hj2 => h j (by omega) (by omega))
    simp [waitReadyLoop, h0, hrec]

theorem waitReadyLoop_error_scan (env : GlobEnv) (g : String)
    (hne : ∀ j, env j ≠ GlobResult.err) :
    ∀ n i e, (waitReadyLoop env g i n).1 = Except.error e →
      e = WaitErr.timedOut g ∧
        ∀ j, i ≤ j → j < i + n → env j = GlobResult.matches [] := by
  intro n
  induction n with
  | zero =>
    intro i e he
    simp only [waitReadyLoop] at he
    refine ⟨by injection he with h; exact h.symm, ?_⟩
    intro j h1 h2
    omega
  | succ n ih =>
    intro i e he
    cases henv : env i
    case err => exact absurd henv (hne i)
    case _ l =>
      cases l with
      | nil =>
        simp only [waitReadyLoop, henv] at he
        obtain ⟨he1, he2⟩ := ih (i + 1) e he
        refine ⟨he1, ?_⟩
        intro j hj1 hj2
        rcases Nat.eq_or_lt_of_le hj1 with heq | hlt
        · rw [← heq]; exact henv
        · exact he2 j (by omega) (by omega)
      | cons d ds =>
        simp [waitReadyLoop, henv] at he

theorem waitReadyLoop_first_match (env : GlobEnv) (g : String) :
    ∀ n i k d ds, i ≤ k → k < i + n →
      (∀ j, i ≤ j → j < k → env j = GlobResult.matches []) →
      env k = GlobResult.matches (d :: ds) →
      waitReadyLoop env g i n = (Except.ok d, k - i) := by
  intro n
  induction n with
  | zero => intro i k d ds h1 h2 _ _; omega
  | succ n ih =>
    intro i k d ds h1 h2 hemp hk
    rcases Nat.eq_or_lt_of_le h1 with heq | hlt
    · rw [← heq] at hk
      rw [← heq]
      simp [waitReadyLoop, hk]
    · have h0 : env i = GlobResult.matches [] := hemp i le_rfl hlt
      have hrec := ih (i + 1) k d ds (by omega) (by omega)
        (fun j a b => hemp j (by omega) b) hk
      simp only [waitReadyLoop, h0, hrec]
      have : k - (i + 1) + 1 = k - i := by omega
      rw [this]

theorem waitReadyLoop_err_at (env : GlobEnv) (g : String) (i n : Nat)
    (h : env i = GlobResult.err) :
    waitReadyLoop env g i (n + 1) = (Except.error WaitErr.badPattern, 0) := by
  simp [waitReadyLoop, h]

theorem waitGoneLoop_ok_iff (env : GlobEnv) (g : String) :
    ∀ n i, (waitGoneLoop env g i n).1 = Except.ok () ↔
      ∃ k, k < n ∧ env (i + k) = GlobResult.matches [] ∧
        ∀ j, j < k → ∃ l, env (i + j) = GlobResult.matches l ∧ l ≠ [] := by
  intro n
  induction n with
  | zero =>
    intro i
    constructor
    · intro h
      simp [waitGoneLoop] at h
    · rintro ⟨k, hk, -, -⟩
      omega
  | succ n ih =>
    intro i
    cases henv : env i
    case err =>
      constructor
      · intro h
        simp [waitGoneLoop, henv] at h
      · rintro ⟨k, hk, hempty, hbefore⟩
        cases k with
        | zero =>
          rw [Nat.add_zero, henv] at hempty
          exact GlobResult.noConfusion hempty
        | succ k =>
          obtain ⟨l, hl, -⟩ := hbefore 0 (by omega)
          rw [Nat.add_zero, henv] at hl
          exact GlobResult.noConfusion hl
    case _ l =>
      cases l with
      | nil =>
        constructor
        · intro _
          exact ⟨0, by omega, by rw [Nat.add_zero]; exact henv,
            fun j hj => absurd hj (by omega)⟩
        · intro _
          simp [waitGoneLoop, henv]
      | cons d ds =>
        have hstep : (waitGoneLoop env g i (n + 1)).1 =
            (waitGoneLoop env g (i + 1) n).1 := by
          simp [waitGoneLoop, henv]
        rw [hstep, ih (i + 1)]
        constructor
        · rintro ⟨k, hk, hempty, hbefore⟩
          refine ⟨k + 1, by omega, ?_, ?_⟩
          · have harith : i + (k + 1) = i + 1 + k := by omega
            rw [harith]; exact hempty
          · intro j hj
            cases j with
            | zero =>
              exact ⟨d :: ds, by rw [Nat.add_zero]; exact henv, by simp⟩
            | succ j =>
              obtain ⟨l, hl, hlne⟩ := hbefore j (by omega)
              refine ⟨l, ?_, hlne⟩
              have harith : i + (j + 1) = i + 1 + j := by omega
              rw [harith]; exact hl
        · rintro ⟨k, hk, hempty, hbefore⟩
          cases k with
          | zero =>
            rw [Nat.add_zero, henv] at hempty
            simp at hempty
          | succ k =>
            refine ⟨k, by omega, ?_, ?_⟩
            · have harith : i + 1 + k = i + (k + 1) := by omega
              rw [harith]; exact hempty
            · intro j hj
              obtain ⟨l, hl, hlne⟩ := hbefore (j + 1) (by omega)
              refine ⟨l, ?_, hlne⟩
              have harith : i + 1 + j = i + (j + 1) := by omega
              rw [harith]; exact hl

theorem waitGoneLoop_noerr (env : GlobEnv) (g : String)
    (hne : ∀ j, env j ≠ GlobResult.err) :
    ∀ n i, (waitGoneLoop env g i n).1 = Except.ok ()
      ∨ (waitGoneLoop env g i n).1 = Except.error (WaitErr.timedOut g) := by
  intro n
  induction n with
  | zero => intro i; right; rfl
  | succ n ih =>
    intro i
    cases henv : env i
    case err => exact absurd henv (hne i)
    case _ l =>
      cases l with
      | nil =>
        left
        simp [waitGoneLoop, henv]
      | cons d ds =>
        have hstep : (waitGoneLoop env g i (n + 1)).1 =
            (waitGoneLoop env g (i + 1) n).1 := by
          simp [waitGoneLoop, henv]
        rw [hstep]
        exact ih (i + 1)

theorem waitGoneLoop_err_at (env : GlobEnv) (g : String) (i n : Nat)
    (h : env i = GlobResult.err) :
    waitGoneLoop env g i (n + 1) = (Except.error WaitErr.badPattern, 0) := by
  simp [waitGoneLoop, h]

/-! ## Constructor lemmas -/

theorem newInitiator_some_error_iff (ctx : List (String × String)) :
    (∃ e, NewNvmeofCsiInitiator (some ctx) = Except.error e) ↔
      (ctxLookup ctx "transport" = "" ∨ ctxLookup ctx "traddr" = "" ∨
       ctxLookup ctx "trsvcid" = "" ∨ ctxLookup ctx "nqn" = "" ∨
       ctxLookup ctx "uuid" = "") := by
  simp only [NewNvmeofCsiInitiator]
  split
  · next hcond =>
    simp only [Bool.or_eq_true, beq_iff_eq] at hcond
    constructor
    · intro _
      tauto
    · intro _
      exact ⟨_, rfl⟩
  · next hcond =>
    simp only [Bool.or_eq_true, beq_iff_eq] at hcond
    push_neg at hcond
    constructor
    · rintro ⟨e, he⟩
      exact Except.noConfusion he
    · intro hd
      tauto

theorem newInitiator_ok_fields (ctx : List (String × String)) (ini : InitiatorNVMf)
    (h : NewNvmeofCsiInitiator (some ctx) = Except.ok ini) :
    ini = ⟨ctxLookup ctx "transport", ctxLookup ctx "traddr",
           ctxLookup ctx "trsvcid", ctxLookup ctx "nqn", ctxLookup ctx "uuid"⟩ := by
  simp only [NewNvmeofCsiInitiator] at h
  split at h
  · exact Except.noConfusion h
  · injection h with h'
    exact h'.symm

/-! ## Claims -/

/-- C1: constructing the fabric initiator from a publishContext map fails
with a validation error if and only if the map is nil or any of the five
required keys (transport, traddr, trsvcid, nqn, uuid) is missing or maps
to the empty string (a missing key of a Go map reads as `""`, which is how
`ctxLookup` models it); in the failure case no initiator is produced (the
result is `Except.error`, and the constructor invokes no external command
— it does not even take a process-behaviour oracle), and in the success
case the initiator's fields equal exactly the values of those five keys. -/
theorem C1_publish_context_validation (ctx? : Option (List (String × String))) :
    ((∃ e, NewNvmeofCsiInitiator ctx? = Except.error e) ↔
      (ctx? = none ∨ ∃ ctx, ctx? = some ctx ∧
        (ctxLookup ctx "transport" = "" ∨ ctxLookup ctx "traddr" = "" ∨
         ctxLookup ctx "trsvcid" = "" ∨ ctxLookup ctx "nqn" = "" ∨
         ctxLookup ctx "uuid" = ""))) ∧
    (∀ ctx ini, ctx? = some ctx → NewNvmeofCsiInitiator ctx? = Except.ok ini →
      ini.targetType = ctxLookup ctx "transport" ∧
      ini.targetAddr = ctxLookup ctx "traddr" ∧
      ini.targetPort = ctxLookup ctx "trsvcid" ∧
      ini.nqn = ctxLookup ctx "nqn" ∧
      ini.uuid = ctxLookup ctx "uuid") := by
  cases ctx? with
  | none =>
    refine ⟨?_, ?_⟩
    · constructor
      · intro _
        exact Or.inl rfl
      · intro _
        exact ⟨"publishContext is nil", rfl⟩
    · intro ctx ini hc
      exact Option.noConfusion hc
  | some ctx =>
    refine ⟨?_, ?_⟩
    · rw [newInitiator_some_error_iff]
      constructor
      · intro h
        exact Or.inr ⟨ctx, rfl, h⟩
      · rintro (h | ⟨ctx', hc, h⟩)
        · exact Option.noConfusion h
        · injection hc with hc'
          subst hc'
          exact h
    · intro ctx' ini hc hok
      injection hc with hc'
      subst hc'
      have hini := newInitiator_ok_fields ctx ini hok
      subst hini
      exact ⟨rfl, rfl, rfl, rfl, rfl⟩

/-- Witness for C1: a fully populated publishContext yields an initiator
whose fields are exactly the five context values. -/
theorem C1_publish_context_validation_witness :
    (InitiatorNVMf.mk "tcp" "10.0.0.5" "4420" "nqn.2025-01.io.test:vol1"
        "1111-2222").targetType =
      ctxLookup [("transport", "tcp"), ("traddr", "10.0.0.5"),
        ("trsvcid", "4420"), ("nqn", "nqn.2025-01.io.test:vol1"),
        ("uuid", "1111-2222")] "transport" ∧
    (InitiatorNVMf.mk "tcp" "10.0.0.5" "4420" "nqn.2025-01.io.test:vol1"
        "1111-2222").targetAddr =
      ctxLookup [("transport", "tcp"), ("traddr", "10.0.0.5"),
        ("trsvcid", "4420"), ("nqn", "nqn.2025-01.io.test:vol1"),
        ("uuid", "1111-2222")] "traddr" ∧
    (InitiatorNVMf.mk "tcp" "10.0.0.5" "4420" "nqn.2025-01.io.test:vol1"
        "1111-2222").targetPort =
      ctxLookup [("transport", "tcp"), ("traddr", "10.0.0.5"),
        ("trsvcid", "4420"), ("nqn", "nqn.2025-01.io.test:vol1"),
        ("uuid", "1111-2222")] "trsvcid" ∧
    (InitiatorNVMf.mk "tcp" "10.0.0.5" "4420" "nqn.2025-01.io.test:vol1"
        "1111-2222").nqn =
      ctxLookup [("transport", "tcp"), ("traddr", "10.0.0.5"),
        ("trsvcid", "4420"), ("nqn", "nqn.2025-01.io.test:vol1"),
        ("uuid", "1111-2222")] "nqn" ∧
    (InitiatorNVMf.mk "tcp" "10.0.0.5" "4420" "nqn.2025-01.io.test:vol1"
        "1111-2222").uuid =
      ctxLookup [("transport", "tcp"), ("traddr", "10.0.0.5"),
        ("trsvcid", "4420"), ("nqn", "nqn.2025-01.io.test:vol1"),
        ("uuid", "1111-2222")] "uuid" :=
  (C1_publish_context_validation
      (some [("transport", "tcp"), ("traddr", "10.0.0.5"),
        ("trsvcid", "4420"), ("nqn", "nqn.2025-01.io.test:vol1"),
        ("uuid", "1111-2222")])).2
    _ _ rfl (by rfl)

/-- C2: for every initiator, Connect's result is determined solely by the
device-presence wait: whatever the connect-all command's outcome (any two
process behaviours give the same result), Connect returns exactly the
result of the 20-second device wait on the uuid glob; it returns the first
match of the first poll with a non-empty match list, and — for a
well-formed pattern (no glob error) — it returns an error only when no
matching device appeared at any of the polls, that error being the wait
timeout. -/
theorem C2_connect_decided_by_device_wait (nvmf : InitiatorNVMf)
    (b b' : Nat → ProcBehavior) (env : GlobEnv) :
    (Connect nvmf b env).1 = (Connect nvmf b' env).1 ∧
    (Connect nvmf b env).1 = (waitForDeviceReady env (deviceGlob nvmf) 20).1 ∧
    (∀ k d ds, k ≤ 20 → (∀ j, j < k → env j = GlobResult.matches []) →
      env k = GlobResult.matches (d :: ds) →
      (Connect nvmf b env).1 = Except.ok d) ∧
    ((∀ j, env j ≠ GlobResult.err) →
      ∀ e, (Connect nvmf b env).1 = Except.error e →
        e = WaitErr.timedOut (deviceGlob nvmf) ∧
        ∀ j, j ≤ 20 → env j = GlobResult.matches []) := by
  refine ⟨rfl, rfl, ?_, ?_⟩
  · intro k d ds hk hbefore hmatch
    have h := waitReadyLoop_first_match env (deviceGlob nvmf) 21 0 k d ds
      (by omega) (by omega) (fun j _ hj => hbefore j hj) hmatch
    show (waitForDeviceReady env (deviceGlob nvmf) 20).1 = _
    rw [waitForDeviceReady, h]
  · intro hne e he
    have h := waitReadyLoop_error_scan env (deviceGlob nvmf) hne 21 0 e he
    exact ⟨h.1, fun j hj => h.2 j (by omega) (by omega)⟩

/-- Witness for C2: with a device appearing (as two aliases) at the second
poll, Connect returns the first alias no matter whether the connect-all
command timed out or succeeded. -/
theorem C2_connect_decided_by_device_wait_witness :
    (Connect (InitiatorNVMf.mk "tcp" "10.0.0.5" "4420" "nqn.t" "uu")
        (fun _ => ProcBehavior.timedOut "")
        (fun i => if i = 0 then GlobResult.matches []
                  else GlobResult.matches ["/dev/disk/by-id/nvme-uuid.uu", "/dev/disk/by-id/nvme-eui.uu"])).1
      = Except.ok "/dev/disk/by-id/nvme-uuid.uu" :=
  (C2_connect_decided_by_device_wait
      (InitiatorNVMf.mk "tcp" "10.0.0.5" "4420" "nqn.t" "uu")
      (fun _ => ProcBehavior.timedOut "")
      (fun _ => ProcBehavior.finished "" true)
      (fun i => if i = 0 then GlobResult.matches []
                else GlobResult.matches ["/dev/disk/by-id/nvme-uuid.uu", "/dev/disk/by-id/nvme-eui.uu"])).2.2.1
    1 "/dev/disk/by-id/nvme-uuid.uu" ["/dev/disk/by-id/nvme-eui.uu"]
    (by omega)
    (fun j hj => by
      have hj0 : j = 0 := by omega
      subst hj0
      rfl)
    rfl

/-- Counterexample for C3: with a glob pattern whose evaluation fails
(e.g. a uuid containing an unmatched bracket), Disconnect returns neither
success nor the disconnect-timeout error, but the bad-pattern error — so
"otherwise returns a disconnect-timeout error" is false as stated. -/
theorem C3_disconnect_counterexample :
    (Disconnect (InitiatorNVMf.mk "tcp" "10.0.0.5" "4420" "nqn.t" "[")
        (fun _ => ProcBehavior.finished "" true) (fun _ => GlobResult.err)).1
      = Except.error WaitErr.badPattern ∧
    (Except.error WaitErr.badPattern : Except WaitErr Unit) ≠ Except.ok () ∧
    WaitErr.badPattern ≠
      WaitErr.timedOut (deviceGlob (InitiatorNVMf.mk "tcp" "10.0.0.5" "4420" "nqn.t" "[")) := by
  refine ⟨rfl, ?_, ?_⟩
  · intro h
    exact Except.noConfusion h
  · intro h
    exact WaitErr.noConfusion h

/-- C3 (amended): a failing disconnect command does not short-circuit
Disconnect (any two process behaviours give the same result); Disconnect
returns success exactly when some poll within the 21-poll budget observes
zero matches for the uuid-keyed device glob, all earlier polls having
observed non-empty match lists; otherwise it returns the bad-pattern error
if a poll's glob evaluation reports one, and in all remaining cases the
disconnect-timeout error. -/
theorem C3_disconnect_device_absence (nvmf : InitiatorNVMf)
    (b b' : Nat → ProcBehavior) (env : GlobEnv) :
    (Disconnect nvmf b env).1 = (Disconnect nvmf b' env).1 ∧
    ((Disconnect nvmf b env).1 = Except.ok () ↔
      ∃ k, k ≤ 20 ∧ env k = GlobResult.matches [] ∧
        ∀ j, j < k → ∃ l, env j = GlobResult.matches l ∧ l ≠ []) ∧
    ((∀ j, env j ≠ GlobResult.err) → (Disconnect nvmf b env).1 ≠ Except.ok () →
      (Disconnect nvmf b env).1 =
        Except.error (WaitErr.timedOut (deviceGlob nvmf))) := by
  refine ⟨rfl, ?_, ?_⟩
  · have hiff := waitGoneLoop_ok_iff env (deviceGlob nvmf) 21 0
    simp only [Nat.zero_add] at hiff
    have hconn : (Disconnect nvmf b env).1 = (waitGoneLoop env (deviceGlob nvmf) 0 21).1 := rfl
    rw [hconn, hiff]
    constructor
    · rintro ⟨k, hk, h1, h2⟩
      exact ⟨k, by omega, h1, h2⟩
    · rintro ⟨k, hk, h1, h2⟩
      exact ⟨k, by omega, h1, h2⟩
  · intro hne hnok
    have hconn : (Disconnect nvmf b env).1 = (waitGoneLoop env (deviceGlob nvmf) 0 21).1 := rfl
    rw [hconn] at hnok ⊢
    rcases waitGoneLoop_noerr env (deviceGlob nvmf) hne 21 0 with h | h
    · exact absurd h hnok
    · exact h

/-- Witness for C3 (amended): the device disappears at the second poll
after being present at the first; Disconnect succeeds even though the
disconnect command exited non-zero. -/
theorem C3_disconnect_device_absence_witness :
    (Disconnect (InitiatorNVMf.mk "tcp" "10.0.0.5" "4420" "nqn.t" "uu")
        (fun _ => ProcBehavior.finished "disconnect failed" false)
        (fun i => if i = 0 then GlobResult.matches ["/dev/disk/by-id/nvme-uuid.uu"]
                  else GlobResult.matches [])).1
      = Except.ok () :=
  ((C3_disconnect_device_absence
      (InitiatorNVMf.mk "tcp" "10.0.0.5" "4420" "nqn.t" "uu")
      (fun _ => ProcBehavior.finished "disconnect failed" false)
      (fun _ => ProcBehavior.finished "" true)
      (fun i => if i = 0 then GlobResult.matches ["/dev/disk/by-id/nvme-uuid.uu"]
                else GlobResult.matches [])).2.1).mpr
    ⟨1, by omega, rfl,
      fun j hj => ⟨["/dev/disk/by-id/nvme-uuid.uu"], by
        have hj0 : j = 0 := by omega
        subst hj0
        exact ⟨rfl, by simp⟩⟩⟩

/-- Counterexample for C4: with a 2-second budget and a never-matching
glob, the device-presence wait sleeps 3 seconds before reporting the
timeout, not 2 — the loop `i <= seconds` runs `seconds + 1` polls and
sleeps one second after each unsuccessful poll, including the last. -/
theorem C4_timeout_counterexample :
    (waitForDeviceReady (fun _ => GlobResult.matches []) "nomatch" 2).2 = 3 ∧
    (3 : Nat) ≠ 2 := by
  refine ⟨rfl, by omega⟩

/-- C4 (amended): for every glob pattern that never matches and every
configured budget of N seconds, the device-presence wait polls once per
second — N + 1 polls in total — and returns the timeout failure after
exactly N + 1 seconds of sleeping (the Go loop `for i := 0; i <= seconds`
checks, then sleeps, on each of its `seconds + 1` iterations). -/
theorem C4_timeout_after_budget (env : GlobEnv) (g : String) (seconds : Nat)
    (h : ∀ i, env i = GlobResult.matches []) :
    waitForDeviceReady env g seconds
      = (Except.error (WaitErr.timedOut g), seconds + 1) :=
  waitReadyLoop_all_empty env g (seconds + 1) 0 (fun j _ _ => h j)

/-- Witness for C4 (amended): budget 2, never-matching glob: timeout after
3 seconds. -/
theorem C4_timeout_after_budget_witness :
    waitForDeviceReady (fun _ => GlobResult.matches []) "nomatch" 2
      = (Except.error (WaitErr.timedOut "nomatch"), 3) :=
  C4_timeout_after_budget (fun _ => GlobResult.matches []) "nomatch" 2
    (fun _ => rfl)

/-- Counterexample for C5: a timed-out fabric command does not cause the
enclosing Connect call to fail — here the connect-all command's deadline
expired, yet Connect succeeds because the device wait finds a match. -/
theorem C5_timeout_counterexample :
    (execWithTimeout
        (connectCmdLine (InitiatorNVMf.mk "tcp" "10.0.0.5" "4420" "nqn.t" "uu"))
        40 (fun _ => ProcBehavior.timedOut "")).2 = some ExecErr.timedOut ∧
    (Connect (InitiatorNVMf.mk "tcp" "10.0.0.5" "4420" "nqn.t" "uu")
        (fun _ => ProcBehavior.timedOut "")
        (fun _ => GlobResult.matches ["/dev/disk/by-id/nvme-uuid.uu"])).1
      = Except.ok "/dev/disk/by-id/nvme-uuid.uu" :=
  ⟨rfl, rfl⟩

/-- C5 (amended): a device-wait deadline exceeded is always fatal for the
enclosing call — a failed device-presence wait fails Connect with the same
error, a failed device-absence wait fails Disconnect with the same error —
and the process runner reports a command whose deadline expired as a
timeout error; but a timed-out fabric command alone does not fail Connect
or Disconnect: only the device wait's outcome decides. -/
theorem C5_deadline_fatality (nvmf : InitiatorNVMf) (b : Nat → ProcBehavior)
    (env : GlobEnv) :
    (∀ e, (waitForDeviceReady env (deviceGlob nvmf) 20).1 = Except.error e →
      (Connect nvmf b env).1 = Except.error e) ∧
    (∀ e, (waitForDeviceGone env (deviceGlob nvmf)).1 = Except.error e →
      (Disconnect nvmf b env).1 = Except.error e) ∧
    (∀ out cl t, b 0 = ProcBehavior.timedOut out →
      execWithTimeout cl t b = (out, some ExecErr.timedOut)) := by
  refine ⟨?_, ?_, ?_⟩
  · intro e he
    exact he
  · intro e he
    exact he
  · intro out cl t hb
    simp [execWithTimeout, hb]

/-- Witness for C5 (amended): a never-matching glob makes the device wait
time out, and Connect fails with that timeout error. -/
theorem C5_deadline_fatality_witness :
    (Connect (InitiatorNVMf.mk "tcp" "10.0.0.5" "4420" "nqn.t" "uu")
        (fun _ => ProcBehavior.finished "" true)
        (fun _ => GlobResult.matches [])).1
      = Except.error (WaitErr.timedOut
          (deviceGlob (InitiatorNVMf.mk "tcp" "10.0.0.5" "4420" "nqn.t" "uu"))) :=
  (C5_deadline_fatality (InitiatorNVMf.mk "tcp" "10.0.0.5" "4420" "nqn.t" "uu")
      (fun _ => ProcBehavior.finished "" true)
      (fun _ => GlobResult.matches [])).1
    (WaitErr.timedOut (deviceGlob (InitiatorNVMf.mk "tcp" "10.0.0.5" "4420" "nqn.t" "uu")))
    rfl

/-- C6: for every poll of the device-presence wait at which the glob
evaluates to a non-empty list of matches (all earlier polls having been
empty), the wait immediately returns the first match of that list — after
exactly as many one-second sleeps as there were earlier polls — so
multiple simultaneous matches (aliases to the same device) never cause an
error and the returned path is the first element. -/
theorem C6_first_match_accepted (env : GlobEnv) (g : String)
    (seconds k : Nat) (d : String) (ds : List String) (hk : k ≤ seconds)
    (hbefore : ∀ j, j < k → env j = GlobResult.matches [])
    (hmatch : env k = GlobResult.matches (d :: ds)) :
    waitForDeviceReady env g seconds = (Except.ok d, k) := by
  have h := waitReadyLoop_first_match env g (seconds + 1) 0 k d ds
    (by omega) (by omega) (fun j _ hj => hbefore j hj) hmatch
  rw [waitForDeviceReady, h, Nat.sub_zero]

/-- Witness for C6: two aliases appear at the second poll; the wait
returns the first of them after one sleep. -/
theorem C6_first_match_accepted_witness :
    waitForDeviceReady
      (fun i => if i = 0 then GlobResult.matches []
                else GlobResult.matches ["/dev/disk/by-id/nvme-uuid.uu", "/dev/disk/by-id/nvme-eui.uu"])
      "g" 20
      = (Except.ok "/dev/disk/by-id/nvme-uuid.uu", 1) :=
  C6_first_match_accepted
    (fun i => if i = 0 then GlobResult.matches []
              else GlobResult.matches ["/dev/disk/by-id/nvme-uuid.uu", "/dev/disk/by-id/nvme-eui.uu"])
    "g" 20 1 "/dev/disk/by-id/nvme-uuid.uu" ["/dev/disk/by-id/nvme-eui.uu"]
    (by omega)
    (fun j hj => by
      have hj0 : j = 0 := by omega
      subst hj0
      rfl)
    rfl

/-- C7: the process runner consults only the first spawn of the behaviour
oracle (it never retries the command internally), classifies a deadline
expiry as `ExecErr.timedOut` and a non-zero exit as `ExecErr.exitErr` —
two distinct outcomes — and in every outcome (success, non-zero exit,
timeout) returns whatever combined output was captured. -/
theorem C7_process_runner_contract (cl : List String) (t : Nat)
    (b b' : Nat → ProcBehavior) :
    (b 0 = b' 0 → execWithTimeout cl t b = execWithTimeout cl t b') ∧
    (∀ out, b 0 = ProcBehavior.timedOut out →
      execWithTimeout cl t b = (out, some ExecErr.timedOut)) ∧
    (∀ out, b 0 = ProcBehavior.finished out false →
      execWithTimeout cl t b = (out, some ExecErr.exitErr)) ∧
    (∀ out, b 0 = ProcBehavior.finished out true →
      execWithTimeout cl t b = (out, none)) ∧
    ExecErr.timedOut ≠ ExecErr.exitErr := by
  refine ⟨?_, ?_, ?_, ?_, ?_⟩
  · intro h
    simp [execWithTimeout, h]
  · intro out h
    simp [execWithTimeout, h]
  · intro out h
    simp [execWithTimeout, h]
  · intro out h
    simp [execWithTimeout, h]
  · intro h
    exact ExecErr.noConfusion h

/-- Witness for C7: a command whose deadline expired still returns its
partial output, classified as a timeout. -/
theorem C7_process_runner_contract_witness :
    execWithTimeout ["nvme", "connect-all", "-t", "tcp"] 40
        (fun _ => ProcBehavior.timedOut "partial output")
      = ("partial output", some ExecErr.timedOut) :=
  (C7_process_runner_contract ["nvme", "connect-all", "-t", "tcp"] 40
      (fun _ => ProcBehavior.timedOut "partial output")
      (fun _ => ProcBehavior.timedOut "partial output")).2.1
    "partial output" rfl

/-- Two in-flight operations on the volume ids "volA" and "volB". -/
def demoVids : Fin 2 → String := fun t => if t = 0 then "volA" else "volB"

/-- State after the "volA" operation acquires its lock. -/
def demoS1 : LockSt 2 :=
  ⟨Function.update (initLockSt demoVids).threads 0
     ⟨((initLockSt demoVids).threads 0).vid, Phase.critical⟩,
   fun v => if v = ((initLockSt demoVids).threads 0).vid then true
            else (initLockSt demoVids).held v⟩

/-- State after the "volB" operation also acquires its lock: both
operations are inside their critical sections in parallel. -/
def demoS2 : LockSt 2 :=
  ⟨Function.update demoS1.threads 1 ⟨(demoS1.threads 1).vid, Phase.critical⟩,
   fun v => if v = (demoS1.threads 1).vid then true else demoS1.held v⟩

/-- C8: in every reachable state of the volume lock registry, no two
distinct in-flight lifecycle operations that are both inside their
critical sections share a volume id (operations on the same volume id are
fully serialized); and an idle operation whose volume id's lock is free
can always acquire it, irrespective of every other thread's state
(operations on distinct volume ids proceed in parallel). -/
theorem C8_volume_lock_serialization {n : Nat} (vids : Fin n → String)
    (s : LockSt n) (h : LockReachable vids s) :
    (∀ t u : Fin n, t ≠ u → (s.threads t).phase = Phase.critical →
      (s.threads u).phase = Phase.critical →
      (s.threads t).vid ≠ (s.threads u).vid) ∧
    (∀ t : Fin n, (s.threads t).phase = Phase.idle →
      s.held (s.threads t).vid = false →
      LockStep s
        ⟨Function.update s.threads t ⟨(s.threads t).vid, Phase.critical⟩,
         fun v => if v = (s.threads t).vid then true else s.held v⟩) :=
  ⟨(lockInv_reachable h).2, fun t hidle hfree => LockStep.acquire s t hidle hfree⟩

/-- Witness for C8: after both demo operations acquire their locks (a
reachable state in which both are critical simultaneously), their volume
ids are necessarily distinct. -/
theorem C8_volume_lock_serialization_witness :
    (demoS2.threads 0).vid ≠ (demoS2.threads 1).vid := by
  have step1 : LockStep (initLockSt demoVids) demoS1 :=
    LockStep.acquire (initLockSt demoVids) 0 rfl rfl
  have step2 : LockStep demoS1 demoS2 :=
    LockStep.acquire demoS1 1 rfl rfl
  have hreach : LockReachable demoVids demoS2 :=
    Relation.ReflTransGen.tail
      (Relation.ReflTransGen.tail Relation.ReflTransGen.refl step1) step2
  exact (C8_volume_lock_serialization demoVids demoS2 hreach).1 0 1
    (by decide) rfl rfl

/-- C9: two valid publishContexts that agree on transport, traddr, nqn and
uuid (differing at most in trsvcid) yield initiators with the same
connect-all command line, the same uuid-keyed device glob and the same
disconnect command line, and whose Connect and Disconnect behave
identically in every environment — the target service/port value never
influences any external command or device match after validation. -/
theorem C9_trsvcid_noninterference (ctx1 ctx2 : List (String × String))
    (i1 i2 : InitiatorNVMf)
    (h1 : NewNvmeofCsiInitiator (some ctx1) = Except.ok i1)
    (h2 : NewNvmeofCsiInitiator (some ctx2) = Except.ok i2)
    (htransport : ctxLookup ctx1 "transport" = ctxLookup ctx2 "transport")
    (htraddr : ctxLookup ctx1 "traddr" = ctxLookup ctx2 "traddr")
    (hnqn : ctxLookup ctx1 "nqn" = ctxLookup ctx2 "nqn")
    (huuid : ctxLookup ctx1 "uuid" = ctxLookup ctx2 "uuid") :
    connectCmdLine i1 = connectCmdLine i2 ∧
    deviceGlob i1 = deviceGlob i2 ∧
    disconnectCmdLine i1 = disconnectCmdLine i2 ∧
    (∀ b env, Connect i1 b env = Connect i2 b env) ∧
    (∀ b env, Disconnect i1 b env = Disconnect i2 b env) := by
  have e1 := newInitiator_ok_fields ctx1 i1 h1
  have e2 := newInitiator_ok_fields ctx2 i2 h2
  subst e1
  subst e2
  refine ⟨?_, ?_, ?_, ?_, ?_⟩
  · simp [connectCmdLine, htransport, htraddr, hnqn]
  · simp [deviceGlob, huuid]
  · simp [disconnectCmdLine, hnqn]
  · intro b env
    simp [Connect, connectCmdLine, deviceGlob, htransport, htraddr, hnqn, huuid]
  · intro b env
    simp [Disconnect, disconnectCmdLine, deviceGlob, hnqn, huuid]

/-- Witness for C9: two contexts differing only in trsvcid (4420 vs 9999)
produce the same connect-all command line. -/
theorem C9_trsvcid_noninterference_witness :
    connectCmdLine (InitiatorNVMf.mk "tcp" "10.0.0.5" "4420" "nqn.t" "uu")
      = connectCmdLine (InitiatorNVMf.mk "tcp" "10.0.0.5" "9999" "nqn.t" "uu") :=
  (C9_trsvcid_noninterference
      [("transport", "tcp"), ("traddr", "10.0.0.5"), ("trsvcid", "4420"),
        ("nqn", "nqn.t"), ("uuid", "uu")]
      [("transport", "tcp"), ("traddr", "10.0.0.5"), ("trsvcid", "9999"),
        ("nqn", "nqn.t"), ("uuid", "uu")]
      (InitiatorNVMf.mk "tcp" "10.0.0.5" "4420" "nqn.t" "uu")
      (InitiatorNVMf.mk "tcp" "10.0.0.5" "9999" "nqn.t" "uu")
      rfl rfl rfl rfl rfl rfl).1

/-- C10: if the first glob evaluation reports a bad-pattern error (as a
malformed uuid makes every evaluation do), both the device-presence wait
and the device-absence wait return that error at their first poll with
zero seconds slept, and Connect and Disconnect fail with the pattern
error, which is distinct from the timeout error. -/
theorem C10_bad_pattern_immediate (nvmf : InitiatorNVMf)
    (b : Nat → ProcBehavior) (env : GlobEnv) (h : env 0 = GlobResult.err) :
    waitForDeviceReady env (deviceGlob nvmf) 20
      = (Except.error WaitErr.badPattern, 0) ∧
    waitForDeviceGone env (deviceGlob nvmf)
      = (Except.error WaitErr.badPattern, 0) ∧
    (Connect nvmf b env).1 = Except.error WaitErr.badPattern ∧
    (Disconnect nvmf b env).1 = Except.error WaitErr.badPattern ∧
    WaitErr.badPattern ≠ WaitErr.timedOut (deviceGlob nvmf) := by
  have hr : waitForDeviceReady env (deviceGlob nvmf) 20
      = (Except.error WaitErr.badPattern, 0) :=
    waitReadyLoop_err_at env (deviceGlob nvmf) 0 20 h
  have hg : waitForDeviceGone env (deviceGlob nvmf)
      = (Except.error WaitErr.badPattern, 0) :=
    waitGoneLoop_err_at env (deviceGlob nvmf) 0 20 h
  refine ⟨hr, hg, ?_, ?_, ?_⟩
  · have hc : (Connect nvmf b env).1
        = (waitForDeviceReady env (deviceGlob nvmf) 20).1 := rfl
    rw [hc, hr]
  · have hd : (Disconnect nvmf b env).1
        = (waitForDeviceGone env (deviceGlob nvmf)).1 := rfl
    rw [hd, hg]
  · intro hne
    exact WaitErr.noConfusion hne

/-- Witness for C10: with a bracket uuid and an erroring glob oracle,
Connect fails with the bad-pattern error. -/
theorem C10_bad_pattern_immediate_witness :
    (Connect (InitiatorNVMf.mk "tcp" "10.0.0.5" "4420" "nqn.t" "[")
        (fun _ => ProcBehavior.finished "" true) (fun _ => GlobResult.err)).1
      = Except.error WaitErr.badPattern :=
  (C10_bad_pattern_immediate (InitiatorNVMf.mk "tcp" "10.0.0.5" "4420" "nqn.t" "[")
      (fun _ => ProcBehavior.finished "" true) (fun _ => GlobResult.err) rfl).2.2.1

end NvmeofCsi
